import Mathlib

/-!
Shallow embedding of the dehy_shopify_automation_tools repository
(`src/shopify_utils/utils.py`, `src/data_ingest/parser.py`,
`src/shopify_utils/products.py`, `src/shopify_utils/media.py`,
`src/shopify_utils/metaobjects.py`, `src/transcription/transcriber.py`,
`src/shopify_utils/transcriber.py`, `src/youtube/uploader.py`), together
with theorems settling the specification claims about it.

Strings are modelled through their character lists; Python `str.strip` is
modelled with ASCII whitespace, and `str.lower` with ASCII lowercasing
(non-ASCII case folding never survives the `[a-z0-9_]` filters involved).
-/

namespace Dehy

/-- ASCII whitespace used by the model of Python `str.strip`. -/
def pySpace (c : Char) : Bool :=
  c == ' ' || c == '\t' || c == '\n' || c == '\r'

/-- Model of Python `str.strip()` on a character list: drop whitespace from
both ends. -/
def stripChars (l : List Char) : List Char :=
  ((l.dropWhile pySpace).reverse.dropWhile pySpace).reverse

/-- Model of Python `str.lower()` (ASCII). -/
def pyLower (l : List Char) : List Char :=
  l.map Char.toLower

/-- Characters kept by the regex class `[a-z0-9_]` of `utils.sanitize`. -/
def isAllowed (c : Char) : Bool :=
  (97 ≤ c.toNat && c.toNat ≤ 122) || (48 ≤ c.toNat && c.toNat ≤ 57) || c.toNat == 95

/-- Model of `re.sub(r'[^a-z0-9_]+', '_', ·)`: every maximal run of characters outside
`[a-z0-9_]` becomes a single underscore.  The Boolean argument records whether
the previous character was part of a disallowed run. -/
def collapseRuns : Bool → List Char → List Char
  | _, [] => []
  | inRun, c :: rest =>
    if isAllowed c then c :: collapseRuns false rest
    else if inRun then collapseRuns true rest
    else '_' :: collapseRuns true rest

/-- Embedding of `utils.sanitize` (src/shopify_utils/utils.py:10-14):
`re.sub(r'[^a-z0-9_]+', '_', value.strip().lower())`. -/
def sanitize (s : String) : String :=
  ⟨collapseRuns false (pyLower (stripChars s.data))⟩

/-- Embedding of `ProductParser._sanitize` (src/data_ingest/parser.py:30-32):
`s.strip().replace(" ", "_").lower()`. -/
def parserSanitize (s : String) : String :=
  ⟨pyLower ((stripChars s.data).map (fun c => if c == ' ' then '_' else c))⟩

/- ### Model of Python `int(...)` (decimal literals) -/

/-- Numeric value of a decimal digit character. -/
def digitVal (c : Char) : Nat := c.toNat - 48

/-- Continues a Python digit run (`digit (["_"] digit)*`): single underscores
are permitted between digits.  Returns the accumulated value and the number of
digits consumed. -/
def pyDigitsAux (acc : Nat) (cnt : Nat) : List Char → Option (Nat × Nat)
  | [] => some (acc, cnt)
  | '_' :: c :: rest =>
    if c.isDigit then pyDigitsAux (acc * 10 + digitVal c) (cnt + 1) rest else none
  | '_' :: [] => none
  | c :: rest =>
    if c.isDigit then pyDigitsAux (acc * 10 + digitVal c) (cnt + 1) rest else none

/-- A full Python digit run: nonempty, starts with a digit. -/
def pyDigitRun : List Char → Option (Nat × Nat)
  | [] => none
  | c :: rest => if c.isDigit then pyDigitsAux (digitVal c) 1 rest else none

/-- Model of Python `int(...)` on a string's characters: optional surrounding
whitespace, optional sign, then a digit run.  (Base prefixes such as `0x` are
not produced by the spreadsheet data and are not modelled.) -/
def pyInt (l : List Char) : Option Int :=
  match stripChars l with
  | '+' :: rest => (pyDigitRun rest).map (fun v => (v.1 : Int))
  | '-' :: rest => (pyDigitRun rest).map (fun v => -(v.1 : Int))
  | rest => (pyDigitRun rest).map (fun v => (v.1 : Int))

/- ### Model of Python `float(...)` for decimal strings -/

/-- Splits a character list on a separator character, like Python
`str.split(sep)`: always at least one (possibly empty) part. -/
def splitOnChar (sep : Char) : List Char → List (List Char)
  | [] => [[]]
  | c :: rest =>
    if c == sep then [] :: splitOnChar sep rest
    else
      match splitOnChar sep rest with
      | g :: gs => (c :: g) :: gs
      | [] => [[c]]

/-- Unsigned part of a Python float literal: `digits`, `digits.`, `.digits`
or `digits.digits` (exponents, `inf` and `nan` are not produced by the
repository's data and are not modelled). -/
def pyFloatUnsigned (l : List Char) : Option ℚ :=
  match splitOnChar '.' l with
  | [ip] => (pyDigitRun ip).map (fun v => (v.1 : ℚ))
  | [[], []] => none
  | [[], fp] => (pyDigitRun fp).map (fun v => (v.1 : ℚ) / 10 ^ v.2)
  | [ip, []] => (pyDigitRun ip).map (fun v => (v.1 : ℚ))
  | [ip, fp] =>
    match pyDigitRun ip, pyDigitRun fp with
    | some a, some b => some ((a.1 : ℚ) + (b.1 : ℚ) / 10 ^ b.2)
    | _, _ => none
  | _ => none

/-- Model of Python `float(...)` on decimal strings, as an exact rational
(the repository only feeds it short price strings such as `"16.50"`, which
are exactly representable). -/
def pyFloat (s : String) : Option ℚ :=
  match stripChars s.data with
  | '+' :: rest => pyFloatUnsigned rest
  | '-' :: rest => (pyFloatUnsigned rest).map (fun q => -q)
  | rest => pyFloatUnsigned rest

/- ### `ProductParser._calc_avg_quantity` (src/data_ingest/parser.py:22-28) -/

/-- Model of `str.replace("pc", "")`: removes every (left-to-right, non-overlapping)
occurrence of the two-character substring `pc`. -/
def removePc : List Char → List Char
  | 'p' :: 'c' :: rest => removePc rest
  | c :: rest => c :: removePc rest
  | [] => []

/-- Ceiling division on integers for a positive divisor, via floor division:
models `math.ceil(sum(vals) / len(vals))` exactly (the float division in the
source is exact for these magnitudes). -/
def ceilDivInt (a : Int) (b : Int) : Int :=
  -(Int.fdiv (-a) b)

/-- Parses each hyphen-separated part with `int(part.strip())`; any failure
aborts (Python raises `ValueError`). -/
def parseParts : List (List Char) → Option (List Int)
  | [] => some []
  | p :: rest =>
    match pyInt (stripChars p), parseParts rest with
    | some v, some vs => some (v :: vs)
    | _, _ => none

/-- Embedding of `ProductParser._calc_avg_quantity`: removes every `"pc"`, then either
averages the hyphen-separated integers (rounding up) or parses the whole
remainder as an integer.  `none` models the `ValueError` the source raises on
unparsable cells. -/
def calc_avg_quantity (cell : String) : Option Int :=
  let l := removePc cell.data
  if l.contains '-' then
    match parseParts (splitOnChar '-' l) with
    | some vals => some (ceilDivInt (vals.foldl (· + ·) 0) vals.length)
    | none => none
  else pyInt l

/-- Claim C5's normalization exactly as the claim words it (strip one
trailing `"pc"` suffix, then treat a hyphenated remainder as a range of two
integers); written from the claim text only, to be compared against
`calc_avg_quantity`. -/
def calcAvgQuantityClaim (cell : String) : Option Int :=
  let l := cell.data
  let l := if (['p', 'c'] : List Char).isSuffixOf l then l.take (l.length - 2) else l
  if l.contains '-' then
    match splitOnChar '-' l with
    | [a, b] =>
      match pyInt (stripChars a), pyInt (stripChars b) with
      | some x, some y => some (ceilDivInt (x + y) 2)
      | _, _ => none
    | _ => none
  else pyInt l

/-- The amended C5 normalization, written from the amended claim text:
remove every occurrence of `"pc"`; if the remainder contains a hyphen, split
on every hyphen, parse each stripped part as an integer and take the ceiling
of the rational mean of all parts; otherwise parse the remainder as an
integer. -/
def calcAvgQuantityAmended (cell : String) : Option Int :=
  let l := removePc cell.data
  if l.contains '-' then
    match parseParts (splitOnChar '-' l) with
    | some vals => some ⌈(((vals.sum : ℚ)) / (vals.length : ℚ))⌉
    | none => none
  else pyInt l

/- ### `ProductParser.parse_excel` (src/data_ingest/parser.py:34-64) -/

/-- One spreadsheet row, after pandas has assigned the positional column
names; cells are modelled as the strings the parser reads from them. -/
structure RawRow where
  SKU : String
  UPC : String
  PRODUCT : String
  WEIGHT : String
  QUANTITY : String
  RETAIL_PRICE : String
  UNIT_PRICE : String
  deriving DecidableEq

/-- One entry of the parser's output table (the dict appended at
src/data_ingest/parser.py:48-61). -/
structure ParsedRow where
  SKU : String
  UPC : String
  PRODUCT : String
  PRODUCT_TITLE : String
  VARIANT_SIZE : String
  WEIGHT : String
  QUANTITY : Int
  RETAIL_PRICE : String
  UNIT_PRICE : String
  HANDLE : String
  deriving DecidableEq

/-- The list `self.size_list` (src/data_ingest/parser.py:18). -/
def size_list : List String :=
  ["Large Bulk", "Small Bulk", "Hanging Pouch", "Stand Up Pouch", "Small Jar", "Large Jar"]

/-- The list `self.cut_list` (src/data_ingest/parser.py:19). -/
def cut_list : List String := ["Fine Cut", "Hand Cut"]

/-- Model of `re.split(r" - |_", product)[0]`: the characters before the first
occurrence of the separator `" - "` or of `'_'`. -/
def beforeDelim : List Char → List Char
  | [] => []
  | '_' :: _ => []
  | ' ' :: '-' :: ' ' :: _ => []
  | c :: rest => c :: beforeDelim rest

/-- Whether the first list is an initial segment of the second. -/
def listStartsWith : List Char → List Char → Bool
  | _, [] => true
  | [], _ :: _ => false
  | c :: cs, d :: ds => c == d && listStartsWith cs ds

/-- Python's substring test `needle in hay`. -/
def containsSub (hay needle : List Char) : Bool :=
  match hay with
  | [] => needle.isEmpty
  | _ :: rest => listStartsWith hay needle || containsSub rest needle

/-- The body of the `for _, row in df.iterrows()` loop: builds one
`ParsedRow`; `none` models the `ValueError` raised by
`_calc_avg_quantity` on an unparsable quantity cell (applied to the
`QUANTITY` column before the loop, which aborts the whole parse alike). -/
def parseRow (row : RawRow) : Option ParsedRow :=
  match calc_avg_quantity row.QUANTITY with
  | none => none
  | some q =>
    let product := row.PRODUCT
    let product_name : String := ⟨stripChars (beforeDelim product.data)⟩
    let cut := (cut_list.find? (fun c => containsSub product.data c.data)).getD ""
    let size := (size_list.find? (fun s => containsSub product.data s.data)).getD ""
    some ⟨row.SKU, row.UPC, product_name,
          product_name ++ " - " ++ cut,
          size, row.WEIGHT, q, row.RETAIL_PRICE, row.UNIT_PRICE,
          "dehydrated_" ++ parserSanitize product_name ++ "_cocktail_garnish"⟩

/-- All rows of the selected sheets, in order; `none` if any quantity cell
fails to parse. -/
def parseSheetRows : List RawRow → Option (List ParsedRow)
  | [] => some []
  | row :: rest =>
    match parseRow row, parseSheetRows rest with
    | some r, some rs => some (r :: rs)
    | _, _ => none

/-- Embedding of `ProductParser.parse_excel`: a workbook is a list of named sheets; only
the sheets literally named `"Wholesale"` and `"Retail"` are considered, and
their rows accumulate into one flat table. -/
def parse_excel (wb : List (String × List RawRow)) : Option (List ParsedRow) :=
  parseSheetRows (((wb.filter (fun sh => sh.1 == "Wholesale" || sh.1 == "Retail")).map Prod.snd).flatten)

/-- Workbook exhibiting the divergence of claim C1: a product cell
containing a hyphen without surrounding spaces. -/
def wbC1 : List (String × List RawRow) :=
  [("Retail", [⟨"SKU1", "UPC1", "A-B", "10g", "7pc", "12.00", "6.00"⟩])]

/-- Workbook used by the witnesses: one well-formed Wholesale row. -/
def wbW : List (String × List RawRow) :=
  [("Wholesale", [⟨"SKU2", "UPC2", "Lemon - Fine Cut - Small Jar", "50g", "10-12pc", "16.50", "8.00"⟩])]

/-- The row `parse_excel` produces from `wbW`. -/
def rowW : ParsedRow :=
  ⟨"SKU2", "UPC2", "Lemon", "Lemon - Fine Cut", "Small Jar", "50g", 11, "16.50", "8.00",
   "dehydrated_lemon_cocktail_garnish"⟩

/- ### JSON-like values (Python dicts / lists / scalars) -/

/-- A Python/JSON value as handled by `recursive_dict_search`, the
transcriber validation and the rich-text renderers.  Dicts are modelled as
ordered association lists with distinct keys. -/
inductive JVal where
  | null
  | bool (b : Bool)
  | num (n : Int)
  | str (s : String)
  | arr (items : List JVal)
  | dict (entries : List (String × JVal))

mutual

/-- Python structural equality `==` on modelled values (dict comparison is
modelled as ordered; the repository never compares dicts through it). -/
def jbeq : JVal → JVal → Bool
  | .null, .null => true
  | .bool a, .bool b => a == b
  | .num a, .num b => a == b
  | .str a, .str b => a == b
  | .arr a, .arr b => jbeqList a b
  | .dict a, .dict b => jbeqEntries a b
  | _, _ => false

def jbeqList : List JVal → List JVal → Bool
  | [], [] => true
  | a :: as_, b :: bs => jbeq a b && jbeqList as_ bs
  | _, _ => false

def jbeqEntries : List (String × JVal) → List (String × JVal) → Bool
  | [], [] => true
  | (k, a) :: as_, (l, b) :: bs => k == l && jbeq a b && jbeqEntries as_ bs
  | _, _ => false

end

/-- Dict lookup (`key in data` / `data[key]`). -/
def lookupJ (entries : List (String × JVal)) (key : String) : Option JVal :=
  (entries.find? (fun p => p.1 == key)).map Prod.snd

/-- The guard `target_value is None or data[key] == target_value`
(src/shopify_utils/utils.py:33). -/
def matchesTarget (target : Option JVal) (v : JVal) : Bool :=
  match target with
  | none => true
  | some tv => jbeq v tv

/-- Model of `found = recursive_dict_search(...); if found is not None: return found`:
a `None` result from a sub-search is treated as "keep looking". -/
def orElseNull : JVal → JVal → JVal
  | .null, fallback => fallback
  | r, _ => r

mutual

/-- Embedding of `utils.recursive_dict_search` (src/shopify_utils/utils.py:28-44).
`JVal.null` plays Python `None`, which doubles as the no-result sentinel. -/
def recursive_dict_search (data : JVal) (key : String) (target : Option JVal) : JVal :=
  match data with
  | .dict entries =>
    match lookupJ entries key with
    | some v => if matchesTarget target v then v else rdsEntries entries key target
    | none => rdsEntries entries key target
  | .arr items => rdsList items key target
  | _ => .null

/-- The `for v in data.values()` loop. -/
def rdsEntries (entries : List (String × JVal)) (key : String) (target : Option JVal) : JVal :=
  match entries with
  | [] => .null
  | (_, v) :: rest =>
    orElseNull (recursive_dict_search v key target) (rdsEntries rest key target)

/-- The `for item in data` loop. -/
def rdsList (items : List JVal) (key : String) (target : Option JVal) : JVal :=
  match items with
  | [] => .null
  | x :: rest => orElseNull (recursive_dict_search x key target) (rdsList rest key target)

end

mutual

/-- The values of all mapping entries matching `key` (and `target`, when
supplied), in depth-first order with each entry before its own value's
sub-structure — claim C3's reference order, written from the spec text. -/
def specMatches (data : JVal) (key : String) (target : Option JVal) : List JVal :=
  match data with
  | .dict entries => specMatchesE entries key target
  | .arr items => specMatchesL items key target
  | _ => []

def specMatchesE (entries : List (String × JVal)) (key : String) (target : Option JVal) : List JVal :=
  match entries with
  | [] => []
  | (k, v) :: rest =>
    ((if k == key && matchesTarget target v then [v] else []) ++ specMatches v key target)
      ++ specMatchesE rest key target

def specMatchesL (items : List JVal) (key : String) (target : Option JVal) : List JVal :=
  match items with
  | [] => []
  | x :: rest => specMatches x key target ++ specMatchesL rest key target

end

/-- Claim C3's discriminating input: the first matching entry in depth-first
order carries the value `None`. -/
def cexC3 : JVal := .arr [.dict [("k", .null)], .dict [("k", .num 5)]]

/- ### Transcriber validation (src/transcription/transcriber.py:85-94 and
src/shopify_utils/transcriber.py:113-118) -/

/-- A raised `ValueError`, by kind. -/
inductive VError where
  | missingKeys (keys : List String)
  | invalidFormat (msg : String)
  deriving DecidableEq

/-- The four required keys, in sorted order (both sources build the same set
literal; the sorted order is the one the transcription implementation joins
into its message; Python's unordered set is modelled canonically sorted). -/
def requiredKeys : List String := ["cocktail_history", "ingredients", "instructions", "intro"]

/-- Model of `key in data.keys()`. -/
def hasKeyJ (d : List (String × JVal)) (k : String) : Bool :=
  (lookupJ d k).isSome

/-- Model of `required - set(data.keys())`, canonically sorted. -/
def missingOf (d : List (String × JVal)) : List String :=
  requiredKeys.filter (fun k => !(hasKeyJ d k))

/-- Model of `isinstance(x, list) and all(isinstance(e, str) for e in x)`. -/
def isListOfStr : Option JVal → Bool
  | some (.arr items) => items.all (fun x => match x with | .str _ => true | _ => false)
  | _ => false

/-- Embedding of `validate_response_structure` of src/transcription/transcriber.py:85-94:
missing-key check, then list-of-strings checks on `ingredients` and
`instructions`.  `none` means the call returns without raising. -/
def validateTranscription (d : List (String × JVal)) : Option VError :=
  if missingOf d ≠ [] then some (.missingKeys (missingOf d))
  else if isListOfStr (lookupJ d "ingredients") = false then
    some (.invalidFormat "ingredients must be a list of strings")
  else if isListOfStr (lookupJ d "instructions") = false then
    some (.invalidFormat "instructions must be a list of strings")
  else none

/-- Embedding of `validate_response_structure` of src/shopify_utils/transcriber.py:113-118:
only the missing-key check. -/
def validateShopifyUtils (d : List (String × JVal)) : Option VError :=
  if missingOf d ≠ [] then some (.missingKeys (missingOf d)) else none

/-- A four-key object whose `ingredients` list contains one non-string
element (claim C2's discriminating input). -/
def dictC2bad : List (String × JVal) :=
  [("cocktail_history", .str "h"), ("intro", .str "i"),
   ("ingredients", .arr [.str "lemon", .num 1]), ("instructions", .arr [.str "stir"])]

/-- A conformant four-key object. -/
def dictC2good : List (String × JVal) :=
  [("cocktail_history", .str "h"), ("intro", .str "i"),
   ("ingredients", .arr [.str "lemon"]), ("instructions", .arr [.str "stir"])]

/-- A three-key object missing `instructions`. -/
def dictC2missing : List (String × JVal) :=
  [("cocktail_history", .str "h"), ("intro", .str "i"), ("ingredients", .arr [])]

/- ### `VariantUpdater` (src/shopify_utils/products.py) -/

/-- A variant as consumed by `_update_variant_positions` /
`_update_variant_metafields`: `option1` is `v.get("option1")` (absent →
`none`), `price` the string `variant["price"]`. -/
structure Variant where
  id : String
  option1 : Option String
  price : String
  deriving DecidableEq

/-- The table `VariantUpdater.VARIANT_ORDER` (src/shopify_utils/products.py:15). -/
def VARIANT_ORDER : List (String × Nat) :=
  [("Pouch", 1), ("Small Jar", 2), ("Large Jar", 3), ("Small Bulk", 4), ("Large Bulk", 5)]

/-- Model of `self.VARIANT_ORDER.get(v.get("option1"))`. -/
def orderOf (option1 : Option String) : Option Nat :=
  option1.bind (fun s => (VARIANT_ORDER.find? (fun p => p.1 == s)).map Prod.snd)

/-- The `positions` list built by `_update_variant_positions`
(src/shopify_utils/products.py:30-34); `if pos:` skips falsy (zero /
missing) positions. -/
def positionsFor (variants : List Variant) : List (String × Nat) :=
  variants.filterMap (fun v =>
    match orderOf v.option1 with
    | some pos => if pos = 0 then none else some (v.id, pos)
    | none => none)

/-- The mutation payload, or `none` when `_update_variant_positions` returns
without calling the API (src/shopify_utils/products.py:35-38). -/
def reorderMutation (variants : List Variant) : Option (List (String × Nat)) :=
  let positions := positionsFor variants
  if positions = [] then none else some positions

/-- A metafield value: a plain string, or the `json.dumps` of the
price-per-piece dict (amount kept as an exact rational; the float `repr`
serialization is abstracted). -/
inductive MfValue where
  | str (s : String)
  | moneyJson (amount : ℚ) (currency_code : String)
  deriving DecidableEq

/-- One metafield of the `productVariantUpdate` input
(src/shopify_utils/products.py:69-70); `namespc` models the Python key
`"namespace"`, a reserved word in Lean. -/
structure Metafield where
  namespc : String
  key : String
  type : String
  value : MfValue
  deriving DecidableEq

/-- What one `_update_variant_metafields` call does. -/
inductive MetafieldOutcome where
  | skippedEmptyTable
  | skippedNoRow
  | errorBadPrice
  | errorDivisionByZero
  | updated (variantId : String) (metafields : List Metafield)
  deriving DecidableEq

/-- The rows of `self.parsed_df` matching the product title and the
variant's `option1` (src/shopify_utils/products.py:46-49); a missing
`option1` matches nothing, as a pandas comparison with `None` would. -/
def rowsMatching (parsed_df : List ParsedRow) (product_title : String)
    (size : Option String) : List ParsedRow :=
  parsed_df.filter (fun r => r.PRODUCT_TITLE == product_title && some r.VARIANT_SIZE == size)

/-- Embedding of `VariantUpdater._update_variant_metafields`
(src/shopify_utils/products.py:41-75) as a function of its inputs:
empty-table and no-row guards, then `float(variant["price"]) / qty_val`
(a `ValueError` on a bad price, a `ZeroDivisionError` on a zero quantity)
and the two-metafield mutation input. -/
def update_variant_metafields (parsed_df : List ParsedRow) (variant : Variant)
    (product_title : String) : MetafieldOutcome :=
  if parsed_df.isEmpty then .skippedEmptyTable
  else
    match (rowsMatching parsed_df product_title variant.option1).head? with
    | none => .skippedNoRow
    | some row =>
      let qty_val := row.QUANTITY
      match pyFloat variant.price with
      | none => .errorBadPrice
      | some p =>
        if qty_val = 0 then .errorDivisionByZero
        else .updated variant.id
          [⟨"custom", "quantity", "number_integer", .str (toString qty_val)⟩,
           ⟨"custom", "price_per_piece", "money", .moneyJson (p / (qty_val : ℚ)) "USD"⟩]

/-- Parsed row for the C6 witness: quantity 11 for the Small Jar variant
of "Lemon - Fine Cut". -/
def rowC6 : ParsedRow :=
  ⟨"SKU2", "UPC2", "Lemon", "Lemon - Fine Cut", "Small Jar", "50g", 11, "16.50", "8.00",
   "dehydrated_lemon_cocktail_garnish"⟩

/-- Parsed table for the C6 witness. -/
def dfC6 : List ParsedRow := [rowC6]

/-- Variant for the C6 witness: price "16.50", option1 "Small Jar". -/
def varC6 : Variant := ⟨"gid-variant-1", some "Small Jar", "16.50"⟩

/-- Parsed table with a zero quantity (claim C7's error-branch input). -/
def dfC7 : List ParsedRow :=
  [⟨"SKU3", "UPC3", "Lime", "Lime - Fine Cut", "Small Jar", "50g", 0, "9.00", "4.00",
    "dehydrated_lime_cocktail_garnish"⟩]

/-- Variant matching the zero-quantity row. -/
def varC7 : Variant := ⟨"gid-variant-2", some "Small Jar", "9.00"⟩

/- ### `MediaUploader.upload_file` (src/shopify_utils/media.py:94-104) -/

/-- A staged-upload target as returned by `stagedUploadsCreate`
(src/shopify_utils/media.py:36-59). -/
structure StagedTarget where
  url : String
  resourceUrl : String
  parameters : List (String × String)
  deriving DecidableEq

/-- Embedding of `MediaUploader.upload_file`: the three phases are supplied as oracles
whose `Except.error` outcomes model the exceptions each phase can raise
(network failures, non-2xx staging responses, malformed response shapes).
The `try/except` of the source converts any of them into `(None, None)`;
`_finalize_upload` itself returns `files[0]["id"] if files else None`, hence
an `Option String` on success. -/
def upload_file (stage : Except String StagedTarget)
    (transfer : StagedTarget → Except String Unit)
    (finalize : String → Except String (Option String)) :
    Option String × Option String :=
  match stage with
  | .error _ => (none, none)
  | .ok staged_target =>
    match transfer staged_target with
    | .error _ => (none, none)
    | .ok _ =>
      let resource_url := staged_target.resourceUrl
      match finalize resource_url with
      | .error _ => (none, none)
      | .ok file_id => (file_id, some resource_url)

/- ### Rich-text rendering (src/youtube/uploader.py:23-60 and
src/shopify_utils/metaobjects.py:54-99) -/

/-- Python `x.get(k, default)`: only dicts have `.get`; anything else raises
`AttributeError`. -/
def pyGet (v : JVal) (k : String) (dflt : JVal) : Except String JVal :=
  match v with
  | .dict entries => .ok ((lookupJ entries k).getD dflt)
  | _ => .error "AttributeError: object has no attribute get"

/-- Python `x[k]` for a string key: `KeyError` on a missing key,
`TypeError` on non-dicts. -/
def pySub (v : JVal) (k : String) : Except String JVal :=
  match v with
  | .dict entries =>
    match lookupJ entries k with
    | some w => .ok w
    | none => .error "KeyError"
  | _ => .error "TypeError: value is not subscriptable by string"

/-- Python `x[0]`: first list element (`IndexError` when empty), first
character of a string, `TypeError` otherwise. -/
def pyIndex0 : JVal → Except String JVal
  | .arr (x :: _) => .ok x
  | .arr [] => .error "IndexError: list index out of range"
  | .str s =>
    match s.data with
    | c :: _ => .ok (.str ⟨[c]⟩)
    | [] => .error "IndexError: string index out of range"
  | _ => .error "TypeError: value is not subscriptable"

/-- Python iteration `for x in v`: lists yield elements, dicts their keys,
strings their characters; scalars raise `TypeError`. -/
def pyIter : JVal → Except String (List JVal)
  | .arr items => .ok items
  | .dict entries => .ok (entries.map (fun e => .str e.1))
  | .str s => .ok (s.data.map (fun c => .str ⟨[c]⟩))
  | _ => .error "TypeError: value is not iterable"

/-- Python truthiness. -/
def pyTruthy : JVal → Bool
  | .null => false
  | .bool b => b
  | .num n => n ≠ 0
  | .str s => s ≠ ""
  | .arr items => !items.isEmpty
  | .dict entries => !entries.isEmpty

/-- Python `str(...)` as used inside f-strings; container renderings are
abbreviated (no claim depends on stringifying a list or dict). -/
def pyStr : JVal → String
  | .null => "None"
  | .bool true => "True"
  | .bool false => "False"
  | .num n => toString n
  | .str s => s
  | .arr _ => "<list>"
  | .dict _ => "<dict>"

/-- Python `"".join(parts)`: `TypeError` unless every part is a string. -/
def joinStrs : List JVal → Except String String
  | [] => .ok ""
  | .str s :: rest => (joinStrs rest).map (fun r => s ++ r)
  | _ :: _ => .error "TypeError: sequence item is not a string"

/-- Model of `c.get("value", "") for c in ... if c.get("type") == "text"`: the
generator feeding the link-text join (src/youtube/uploader.py:38). -/
def linkTextVals : List JVal → Except String (List JVal)
  | [] => .ok []
  | c :: rest => do
    let ty ← pyGet c "type" .null
    if jbeq ty (.str "text") then
      let v ← pyGet c "value" (.str "")
      let vs ← linkTextVals rest
      .ok (v :: vs)
    else linkTextVals rest

/-- The `for child in item.get("children", [])` loop building `parts`
(src/youtube/uploader.py:33-40). -/
def collectParts : List JVal → Except String (List JVal)
  | [] => .ok []
  | child :: rest => do
    let ty ← pyGet child "type" .null
    if jbeq ty (.str "text") then
      let v ← pyGet child "value" (.str "")
      let vs ← collectParts rest
      .ok (v :: vs)
    else if jbeq ty (.str "link") then
      let lchildren ← pyGet child "children" (.arr [])
      let lcs ← pyIter lchildren
      let vals ← linkTextVals lcs
      let text ← joinStrs vals
      let titleV ← pyGet child "title" .null
      let part : JVal :=
        if pyTruthy titleV then .str (pyStr titleV ++ ": " ++ text) else .str text
      let vs ← collectParts rest
      .ok (part :: vs)
    else collectParts rest

/-- The `for i, item in enumerate(items, 1)` loop of `_format_rich_list`:
each item yields at most one rendered line; blank lines are skipped but the
counter still advances. -/
def formatItems (listType : JVal) : List JVal → Nat → Except String (List String)
  | [], _ => .ok []
  | item :: rest, i => do
    let ichildren ← pyGet item "children" (.arr [])
    let children ← pyIter ichildren
    let parts ← collectParts children
    let joined ← joinStrs parts
    let line : String := ⟨stripChars joined.data⟩
    let others ← formatItems listType rest (i + 1)
    if line = "" then .ok others
    else .ok ((if jbeq listType (.str "ordered") then toString i ++ ". " ++ line
               else "• " ++ line) :: others)

/-- Embedding of `_format_rich_list` (src/youtube/uploader.py:23-45).  Its argument is
the outcome of `json.loads(json_data)`: `none` models a parse failure, which
the function's `try/except` turns into `""`; everything after the parse is
outside the `try` and its exceptions propagate as `Except.error`. -/
def format_rich_list (parsed : Option JVal) : Except String String :=
  match parsed with
  | none => .ok ""
  | some data => do
    let childrenV ← pyGet data "children" (.arr [.dict []])
    let first ← pyIndex0 childrenV
    let itemsV ← pyGet first "children" (.arr [])
    let childrenV' ← pyGet data "children" (.arr [.dict []])
    let first' ← pyIndex0 childrenV'
    let listType ← pyGet first' "listType" (.str "unordered")
    let items ← pyIter itemsV
    let lines ← formatItems listType items 1
    .ok (String.intercalate "\n" lines)

/-- Embedding of `_video_description_from_meta` (src/youtube/uploader.py:48-60), with
`json.loads` supplied as an oracle `parseJson` (`none` = parse failure).
The dict comprehension over `meta["fields"]` lets later duplicate keys win,
hence the reversed lookup. -/
def video_description_from_meta (parseJson : String → Option JVal)
    (fields : List (String × String)) : Except String String := do
  let fmap := fun (k : String) =>
    (((fields.reverse.find? (fun f => f.1 == k)).map Prod.snd).getD "")
  let intro := fmap "intro"
  let history := fmap "cocktail_history"
  let ingredients ← format_rich_list (parseJson (fmap "ingredients"))
  let instructions ← format_rich_list (parseJson (fmap "instructions"))
  let sections : List String :=
    [⟨stripChars history.data⟩, ⟨stripChars intro.data⟩,
     if ingredients ≠ "" then "Ingredients:\n" ++ ingredients else "",
     if instructions ≠ "" then "Instructions:\n" ++ instructions else ""]
  .ok ⟨stripChars (String.intercalate "\n\n" (sections.filter (fun s => s ≠ ""))).data⟩

/-- Embedding of `extract_field` inside `generate_blog_html`
(src/shopify_utils/metaobjects.py:56-60): first field with the key, else
`None`. -/
def extract_field (fields : List (String × String)) (key : String) : Option String :=
  (fields.find? (fun f => f.1 == key)).map Prod.snd

/-- The inner `for child in item["children"]` loop of `generate_blog_html`
(src/shopify_utils/metaobjects.py:76-82): text nodes append their `value`
(a `TypeError` if it is not a string), link nodes render an anchor tag. -/
def renderChildren : List JVal → Except String String
  | [] => .ok ""
  | child :: rest => do
    let ty ← pySub child "type"
    if jbeq ty (.str "text") then
      let v ← pySub child "value"
      match v with
      | .str sv => (renderChildren rest).map (fun r => sv ++ r)
      | _ => .error "TypeError: cannot concatenate non-string"
    else if jbeq ty (.str "link") then
      let lc ← pySub child "children"
      let firstChild ← pyIndex0 lc
      let tv ← pySub firstChild "value"
      let url ← pySub child "url"
      let title ← pySub child "title"
      (renderChildren rest).map (fun r =>
        "<a href=\"" ++ pyStr url ++ "\" title=\"" ++ pyStr title ++ "\">" ++ pyStr tv
          ++ "</a>" ++ r)
    else renderChildren rest

/-- The `for item in parsed["children"][0]["children"]` loop of
`generate_blog_html`, wrapping each item in an `<li>`. -/
def renderItems : List JVal → Except String String
  | [] => .ok ""
  | item :: rest => do
    let cs ← pySub item "children"
    let children ← pyIter cs
    let inner ← renderChildren children
    let r ← renderItems rest
    .ok ("<li>" ++ inner ++ "</li>\n" ++ r)

/-- One rich-text list section of `generate_blog_html`: `json.loads` is NOT
guarded there, so a parse failure (`parseJson _ = .error e`) propagates. -/
def renderListSection (parseJson : String → Except String JVal)
    (jsonText : Option String) (header : String) (openTag closeTag : String) :
    Except String String :=
  match jsonText with
  | none => .ok ""
  | some s =>
    if s = "" then .ok ""
    else do
      let parsed ← parseJson s
      let cs ← pySub parsed "children"
      let firstBlock ← pyIndex0 cs
      let items' ← pySub firstBlock "children"
      let items ← pyIter items'
      let body ← renderItems items
      .ok (header ++ openTag ++ "\n" ++ body ++ closeTag ++ "\n")

/-- Embedding of `MetaobjectManager.generate_blog_html`
(src/shopify_utils/metaobjects.py:54-99), with `json.loads` supplied as an
oracle: history paragraph, then the `ingredients` `<ul>` and `instructions`
`<ol>` sections; malformed rich-text JSON is fatal to the call. -/
def generate_blog_html (parseJson : String → Except String JVal)
    (fields : List (String × String)) : Except String String := do
  let cocktail_history := extract_field fields "cocktail_history"
  let ingredients_json := extract_field fields "ingredients"
  let instructions_json := extract_field fields "instructions"
  let historyHtml :=
    match cocktail_history with
    | some h => if h ≠ "" then "<h4>Cocktail History</h4><p>" ++ h ++ "</p>\n" else ""
    | none => ""
  let ingHtml ← renderListSection parseJson ingredients_json "<h4>Ingredients</h4>" "<ul>" "</ul>"
  let insHtml ← renderListSection parseJson instructions_json "<h4>Instructions</h4>" "<ol>" "</ol>"
  .ok (historyHtml ++ ingHtml ++ insHtml)

/-- Claim C10's discriminating input: the valid-JSON value of the string
`"\x7b\"children\": []\x7d"` — an empty `children` list. -/
def richC10 : JVal := .dict [("children", .arr [])]

/-- A well-formed ordered rich-text document with two one-text-node items. -/
def richOrdered : JVal :=
  .dict [("children", .arr
    [.dict [("children", .arr
       [.dict [("children", .arr [.dict [("type", .str "text"), ("value", .str "Step one")]])],
        .dict [("children", .arr [.dict [("type", .str "text"), ("value", .str "Step two")]])]]),
      ("listType", .str "ordered")]])]

/-! ## Theorems -/

/- ### Helper lemmas on `sanitize` -/

theorem mem_collapseRuns (c : Char) :
    ∀ (l : List Char) (b : Bool), c ∈ collapseRuns b l → isAllowed c = true := by
  intro l
  induction l with
  | nil => intro b h; simp [collapseRuns] at h
  | cons d rest ih =>
    intro b h
    rw [collapseRuns] at h
    by_cases hd : isAllowed d
    · rw [if_pos hd] at h
      rcases List.mem_cons.mp h with rfl | hmem
      · exact hd
      · exact ih false hmem
    · rw [if_neg hd] at h
      cases b with
      | true => exact ih true (by simpa using h)
      | false =>
        rcases List.mem_cons.mp (by simpa using h) with rfl | hmem
        · decide
        · exact ih true hmem

theorem toLower_eq_self_of_allowed (c : Char) (h : isAllowed c = true) : c.toLower = c := by
  simp only [isAllowed, Bool.or_eq_true, Bool.and_eq_true, decide_eq_true_eq,
    Nat.beq_eq_true_eq] at h
  simp only [Char.toLower]
  rw [if_neg (by omega)]

theorem allowed_not_space (c : Char) (h : isAllowed c = true) : pySpace c = false := by
  by_contra hs
  rw [Bool.not_eq_false] at hs
  simp only [pySpace, Bool.or_eq_true, beq_iff_eq] at hs
  rcases hs with ((h1 | h1) | h1) | h1 <;> subst h1 <;> exact absurd h (by decide)

theorem dropWhile_eq_self_of_none {p : Char → Bool} :
    ∀ l : List Char, (∀ c ∈ l, p c = false) → l.dropWhile p = l
  | [], _ => rfl
  | c :: rest, h => by
    rw [List.dropWhile_cons, h c (List.mem_cons_self c rest)]
    simp

theorem stripChars_eq_self {l : List Char} (h : ∀ c ∈ l, pySpace c = false) :
    stripChars l = l := by
  unfold stripChars
  rw [dropWhile_eq_self_of_none l h,
    dropWhile_eq_self_of_none l.reverse (fun c hc => h c (List.mem_reverse.mp hc)),
    List.reverse_reverse]

theorem pyLower_eq_self : ∀ l : List Char, (∀ c ∈ l, isAllowed c = true) → pyLower l = l
  | [], _ => rfl
  | c :: rest, h => by
    simp only [pyLower, List.map_cons]
    rw [toLower_eq_self_of_allowed c (h c (List.mem_cons_self c rest))]
    have hr := pyLower_eq_self rest (fun d hd => h d (List.mem_cons_of_mem c hd))
    simp only [pyLower] at hr
    rw [hr]

theorem collapseRuns_eq_self : ∀ l : List Char, (∀ c ∈ l, isAllowed c = true) →
    collapseRuns false l = l
  | [], _ => rfl
  | c :: rest, h => by
    rw [collapseRuns, if_pos (h c (List.mem_cons_self c rest)),
      collapseRuns_eq_self rest (fun d hd => h d (List.mem_cons_of_mem c hd))]

theorem sanitize_idem (s : String) : sanitize (sanitize s) = sanitize s := by
  show sanitize ⟨collapseRuns false (pyLower (stripChars s.data))⟩ = _
  unfold sanitize
  have hall : ∀ c ∈ collapseRuns false (pyLower (stripChars s.data)), isAllowed c = true :=
    fun c hc => mem_collapseRuns c _ false hc
  show (⟨collapseRuns false (pyLower (stripChars
      (collapseRuns false (pyLower (stripChars s.data)))))⟩ : String) = _
  rw [stripChars_eq_self (fun c hc => allowed_not_space c (hall c hc)),
    pyLower_eq_self _ hall, collapseRuns_eq_self _ hall]

/- ### Claim C9 -/

/-- Claim C9: the shared `sanitize` is idempotent, and
`sanitize "Lemon - Fine Cut" = "lemon_fine_cut"` (runs of characters outside
`[a-z0-9_]` collapse to a single underscore after stripping and
lowercasing). -/
theorem claim_C9_sanitize_idempotent :
    (∀ s : String, sanitize (sanitize s) = sanitize s) ∧
      sanitize "Lemon - Fine Cut" = "lemon_fine_cut" :=
  ⟨sanitize_idem, by decide⟩

/- ### Helper lemmas on quantity averaging -/

theorem foldl_add_eq_sum : ∀ (l : List Int) (a : Int), l.foldl (· + ·) a = a + l.sum
  | [], a => by simp
  | x :: rest, a => by
    rw [List.foldl_cons, foldl_add_eq_sum rest (a + x), List.sum_cons]
    omega

theorem ceilDivInt_eq_ceil (a : Int) (n : Nat) :
    ceilDivInt a n = ⌈((a : ℚ) / (n : ℚ))⌉ := by
  unfold ceilDivInt
  rcases Nat.eq_zero_or_pos n with hn | hn
  · subst hn; simp
  · rw [Int.fdiv_eq_ediv _ (by exact_mod_cast Nat.zero_le n)]
    have hfloor : ⌊((-a : ℚ) / (n : ℚ))⌋ = (-a) / (n : Int) := by
      exact_mod_cast Rat.floor_intCast_div_natCast (-a) n
    rw [← hfloor, ← Int.ceil_neg]
    congr 1
    rw [neg_div, neg_neg]

/- ### Claim C5 -/

/-- Claim C5 as stated is false on the code: `_calc_avg_quantity` removes
every occurrence of `"pc"`, not just a trailing suffix, so the input
`"pc7"` (no trailing `"pc"`, not an integer) succeeds with 7 where the
claim's normalization fails. -/
theorem claim_C5_counterexample :
    calc_avg_quantity "pc7" = some 7 ∧ calcAvgQuantityClaim "pc7" = none := by
  constructor <;> decide

/-- Claim C5 (amended): `_calc_avg_quantity` removes every occurrence of
`"pc"` anywhere in the cell; a hyphenated remainder is split on every hyphen
and the result is the ceiling of the rational mean of all the parts parsed
as integers; otherwise the remainder parses directly as an integer
(`none` = `ValueError`).  In particular `"10-12pc"` yields 11, `"7pc"`
yields 7 and `"10-11pc"` yields 11. -/
theorem claim_C5_amended :
    (∀ cell : String, calc_avg_quantity cell = calcAvgQuantityAmended cell) ∧
      calc_avg_quantity "10-12pc" = some 11 ∧ calc_avg_quantity "7pc" = some 7 ∧
      calc_avg_quantity "10-11pc" = some 11 := by
  refine ⟨fun cell => ?_, by decide, by decide, by decide⟩
  unfold calc_avg_quantity calcAvgQuantityAmended
  dsimp only
  split
  · cases hp : parseParts (splitOnChar '-' (removePc cell.data)) with
    | none => simp
    | some vals =>
      simp only [Option.some.injEq]
      rw [foldl_add_eq_sum vals 0, zero_add, ceilDivInt_eq_ceil]
  · rfl

/- ### Helper lemmas on `parse_excel` -/

theorem parseRow_handle {row : RawRow} {r : ParsedRow} (h : parseRow row = some r) :
    r.HANDLE = "dehydrated_" ++ parserSanitize r.PRODUCT ++ "_cocktail_garnish" := by
  unfold parseRow at h
  cases hq : calc_avg_quantity row.QUANTITY with
  | none => rw [hq] at h; exact absurd h (by simp)
  | some q =>
    rw [hq] at h
    dsimp only at h
    rw [Option.some.injEq] at h
    subst h
    rfl

theorem parseSheetRows_mem : ∀ (l : List RawRow) (rows : List ParsedRow),
    parseSheetRows l = some rows → ∀ r ∈ rows, ∃ row, parseRow row = some r
  | [], rows, h => by
    simp only [parseSheetRows, Option.some.injEq] at h
    subst h
    intro r hr
    simp at hr
  | row :: rest, rows, h => by
    rw [parseSheetRows] at h
    cases h1 : parseRow row with
    | none => rw [h1] at h; simp at h
    | some r0 =>
      rw [h1] at h
      cases h2 : parseSheetRows rest with
      | none => rw [h2] at h; simp at h
      | some rs =>
        rw [h2] at h
        simp only [Option.some.injEq] at h
        subst h
        intro r hr
        rcases List.mem_cons.mp hr with rfl | hmem
        · exact ⟨row, h1⟩
        · exact parseSheetRows_mem rest rs h2 r hmem

/- ### Claim C1 -/

/-- Claim C1 is false as stated: on the workbook `wbC1`, whose product cell
is `"A-B"`, the produced handle is `"dehydrated_a-b_cocktail_garnish"`
(built with `ProductParser._sanitize`), while the shared `sanitize` of §4.1
would give `"dehydrated_a_b_cocktail_garnish"`. -/
theorem claim_C1_counterexample :
    ((parse_excel wbC1).getD []).map ParsedRow.HANDLE = ["dehydrated_a-b_cocktail_garnish"] ∧
    ((parse_excel wbC1).getD []).map
        (fun r => "dehydrated_" ++ sanitize r.PRODUCT ++ "_cocktail_garnish")
      = ["dehydrated_a_b_cocktail_garnish"] ∧
    ("dehydrated_a-b_cocktail_garnish" : String) ≠ "dehydrated_a_b_cocktail_garnish" :=
  ⟨by decide, by decide, by decide⟩

/-- Claim C1 (amended): for every row produced by `ProductParser.parse_excel`,
the row's handle equals `"dehydrated_" + S(product_name) + "_cocktail_garnish"`
where `S` is the parser's own `_sanitize` (strip, replace each space with an
underscore, lowercase) — not the shared regex-based `sanitize` of §4.1, from
which it differs e.g. on names containing a hyphen. -/
theorem claim_C1_amended (wb : List (String × List RawRow)) (rows : List ParsedRow)
    (h : parse_excel wb = some rows) :
    ∀ r ∈ rows, r.HANDLE = "dehydrated_" ++ parserSanitize r.PRODUCT ++ "_cocktail_garnish" := by
  intro r hr
  obtain ⟨row, hrow⟩ := parseSheetRows_mem _ rows h r hr
  exact parseRow_handle hrow

/-- Witness for the amended claim C1 at the concrete workbook `wbW`. -/
theorem claim_C1_witness :
    rowW.HANDLE = "dehydrated_" ++ parserSanitize rowW.PRODUCT ++ "_cocktail_garnish" :=
  claim_C1_amended wbW [rowW] (by decide) rowW (by decide)

/- ### Claim C2 -/

theorem missingOf_eq_nil_iff (d : List (String × JVal)) :
    missingOf d = [] ↔ ∀ k ∈ requiredKeys, hasKeyJ d k = true := by
  simp [missingOf, List.filter_eq_nil_iff]

/-- Claim C2 is false as stated: the shopify_utils implementation checks
only key presence, so it accepts `dictC2bad`, a four-key object whose
`ingredients` list contains a non-string element — the transcription
implementation rejects the same object with InvalidFormat. -/
theorem claim_C2_counterexample :
    validateShopifyUtils dictC2bad = none ∧
    validateTranscription dictC2bad =
      some (.invalidFormat "ingredients must be a list of strings") :=
  ⟨by decide, by decide⟩

/-- Claim C2 (amended): the transcription implementation accepts iff the
four keys are present and both `ingredients` and `instructions` are lists of
strings (failing with the missing-key error, else InvalidFormat); the
shopify_utils implementation checks only key presence, so an object whose
`ingredients` contains one non-string element passes it. -/
theorem claim_C2_amended :
    (∀ d, validateTranscription d = none ↔
      ((∀ k ∈ requiredKeys, hasKeyJ d k = true) ∧
        isListOfStr (lookupJ d "ingredients") = true ∧
        isListOfStr (lookupJ d "instructions") = true)) ∧
    (∀ d, validateShopifyUtils d = none ↔ ∀ k ∈ requiredKeys, hasKeyJ d k = true) ∧
    validateTranscription dictC2missing = some (.missingKeys ["instructions"]) ∧
    validateTranscription dictC2bad =
      some (.invalidFormat "ingredients must be a list of strings") ∧
    validateTranscription dictC2good = none ∧
    validateShopifyUtils dictC2good = none := by
  refine ⟨fun d => ?_, fun d => ?_, by decide, by decide, by decide, by decide⟩
  · unfold validateTranscription
    rw [← missingOf_eq_nil_iff]
    split_ifs with h1 h2 h3 <;> simp_all
  · unfold validateShopifyUtils
    rw [← missingOf_eq_nil_iff]
    split_ifs with h1 <;> simp_all

/- ### Claim C4 -/

theorem orderOf_pos {o : Option String} {p : Nat} (h : orderOf o = some p) : p ≠ 0 := by
  cases o with
  | none => simp [orderOf] at h
  | some s =>
  unfold orderOf at h
  simp only [Option.some_bind] at h
  cases hf : VARIANT_ORDER.find? (fun q => q.1 == s) with
  | none => rw [hf] at h; simp at h
  | some e =>
    rw [hf] at h
    simp only [Option.map_some'] at h
    rw [Option.some.injEq] at h
    have hmem := List.mem_of_find?_eq_some hf
    simp only [VARIANT_ORDER, List.mem_cons, List.mem_singleton] at hmem
    rcases hmem with rfl | rfl | rfl | rfl | rfl | hmem
    all_goals first
      | (rw [← h]; decide)
      | simp at hmem

theorem positionsFor_eq_map_filter (vs : List Variant) :
    positionsFor vs = (vs.filter (fun v => (orderOf v.option1).isSome)).map
      (fun v => (v.id, (orderOf v.option1).getD 0)) := by
  induction vs with
  | nil => rfl
  | cons v rest ih =>
    simp only [positionsFor] at ih ⊢
    rw [List.filterMap_cons, List.filter_cons]
    cases ho : orderOf v.option1 with
    | none => simpa using ih
    | some p =>
      have hp : p ≠ 0 := orderOf_pos ho
      simp [hp, ho, ih]

/-- Claim C4: `_update_variant_positions` builds one `(id, position)` pair
exactly for the variants whose `option1` matches a key of `VARIANT_ORDER`,
in the original relative order; the parser's sizes `"Hanging Pouch"` and
`"Stand Up Pouch"` match nothing; `["Small Jar", "Unknown Size",
"Large Bulk"]` yields exactly the pairs with positions 2 and 5; and if no
variant matches, no mutation call is made. -/
theorem claim_C4_variant_positions :
    (∀ vs : List Variant, positionsFor vs =
      (vs.filter (fun v => (orderOf v.option1).isSome)).map
        (fun v => (v.id, (orderOf v.option1).getD 0))) ∧
    orderOf (some "Hanging Pouch") = none ∧
    orderOf (some "Stand Up Pouch") = none ∧
    positionsFor [⟨"gid1", some "Small Jar", "1.00"⟩, ⟨"gid2", some "Unknown Size", "1.00"⟩,
        ⟨"gid3", some "Large Bulk", "1.00"⟩] = [("gid1", 2), ("gid3", 5)] ∧
    reorderMutation [⟨"gid4", some "Hanging Pouch", "1.00"⟩,
        ⟨"gid5", some "Stand Up Pouch", "1.00"⟩] = none :=
  ⟨positionsFor_eq_map_filter, by decide, by decide, by decide, by decide⟩

/- ### Claims C6 and C7 -/

theorem pyFloat_1650 : pyFloat "16.50" = some ((16 : ℚ) + 50 / 10 ^ 2) := rfl

theorem pyFloat_1650_val : pyFloat "16.50" = some (33 / 2 : ℚ) := by
  rw [pyFloat_1650]
  norm_num

theorem mem_of_head?_some {α : Type} {l : List α} {a : α} (h : l.head? = some a) : a ∈ l := by
  cases l with
  | nil => simp at h
  | cons x xs =>
    simp only [List.head?_cons, Option.some.injEq] at h
    subst h
    exact List.mem_cons_self x xs

/-- Claim C6: when `_update_variant_metafields` matches a parsed row (with
nonzero quantity `q`) and the variant price parses to `p`, it issues exactly
the two metafields under namespace `custom`: `quantity` of type
`number_integer` with the decimal string of `q`, and `price_per_piece` of
type `money` with amount `p / q` and currency `"USD"`; for `q = 11` and
price `"16.50"` the amount is `16.50 / 11 = 1.5` and the quantity value is
the string `"11"`. -/
theorem claim_C6_metafields :
    (∀ (parsed_df : List ParsedRow) (variant : Variant) (title : String)
        (row : ParsedRow) (p : ℚ),
      parsed_df ≠ [] →
      (rowsMatching parsed_df title variant.option1).head? = some row →
      row.QUANTITY ≠ 0 →
      pyFloat variant.price = some p →
      update_variant_metafields parsed_df variant title =
        .updated variant.id
          [⟨"custom", "quantity", "number_integer", .str (toString row.QUANTITY)⟩,
           ⟨"custom", "price_per_piece", "money",
            .moneyJson (p / (row.QUANTITY : ℚ)) "USD"⟩]) ∧
    update_variant_metafields dfC6 varC6 "Lemon - Fine Cut" =
      .updated varC6.id
        [⟨"custom", "quantity", "number_integer", .str "11"⟩,
         ⟨"custom", "price_per_piece", "money",
          .moneyJson ((33 / 2 : ℚ) / ((11 : Int) : ℚ)) "USD"⟩] ∧
    ((33 / 2 : ℚ) / ((11 : Int) : ℚ) = 3 / 2) := by
  have hgen : ∀ (parsed_df : List ParsedRow) (variant : Variant) (title : String)
      (row : ParsedRow) (p : ℚ),
      parsed_df ≠ [] →
      (rowsMatching parsed_df title variant.option1).head? = some row →
      row.QUANTITY ≠ 0 →
      pyFloat variant.price = some p →
      update_variant_metafields parsed_df variant title =
        .updated variant.id
          [⟨"custom", "quantity", "number_integer", .str (toString row.QUANTITY)⟩,
           ⟨"custom", "price_per_piece", "money",
            .moneyJson (p / (row.QUANTITY : ℚ)) "USD"⟩] := by
    intro parsed_df variant title row p hne hhead hq hp
    unfold update_variant_metafields
    rw [if_neg (by simpa [List.isEmpty_iff] using hne)]
    rw [hhead, hp]
    dsimp only
    rw [if_neg hq]
  refine ⟨hgen, ?_, by norm_num⟩
  have h := hgen dfC6 varC6 "Lemon - Fine Cut" rowC6 (33 / 2)
    (by decide) (by decide) (by decide) pyFloat_1650_val
  exact h

/-- Witness for claim C6 at the concrete table `dfC6` and variant `varC6`. -/
theorem claim_C6_witness :
    update_variant_metafields dfC6 varC6 "Lemon - Fine Cut" =
      .updated varC6.id
        [⟨"custom", "quantity", "number_integer", .str (toString rowC6.QUANTITY)⟩,
         ⟨"custom", "price_per_piece", "money",
          .moneyJson ((33 / 2 : ℚ) / (rowC6.QUANTITY : ℚ)) "USD"⟩] :=
  claim_C6_metafields.1 dfC6 varC6 "Lemon - Fine Cut" rowC6 (33 / 2)
    (by decide) (by decide) (by decide) pyFloat_1650_val

/-- Claim C7: the division `variant.price / quantity` is unguarded — the
`ZeroDivisionError` branch is reachable (zero-quantity row `dfC7`) — and
whenever every matching row's quantity is positive, no division error
occurs. -/
theorem claim_C7_division_guard :
    update_variant_metafields dfC7 varC7 "Lime - Fine Cut" = .errorDivisionByZero ∧
    (∀ (parsed_df : List ParsedRow) (variant : Variant) (title : String),
      (∀ row ∈ rowsMatching parsed_df title variant.option1, 0 < row.QUANTITY) →
      update_variant_metafields parsed_df variant title ≠ .errorDivisionByZero) := by
  constructor
  · decide
  · intro parsed_df variant title hpos
    unfold update_variant_metafields
    split
    · simp
    · cases hh : (rowsMatching parsed_df title variant.option1).head? with
      | none => simp
      | some row =>
        dsimp only
        cases hp : pyFloat variant.price with
        | none => simp
        | some p =>
          have hq : row.QUANTITY ≠ 0 := by
            have := hpos row (mem_of_head?_some hh)
            omega
          dsimp only
          rw [if_neg hq]
          simp

/-- Witness for claim C7's positive-quantity direction at the concrete
table `dfC6`. -/
theorem claim_C7_witness :
    update_variant_metafields dfC6 varC6 "Lemon - Fine Cut" ≠ .errorDivisionByZero :=
  claim_C7_division_guard.2 dfC6 varC6 "Lemon - Fine Cut" (by decide)

/- ### Claim C8 -/

/-- Claim C8: `upload_file` converts a failure in any of the three phases
(stage, transfer, finalize) into the pair `(none, none)` and never
propagates it, while a fully successful run returns
`(file_id, resource_url)`; hence one failed upload cannot abort a batch. -/
theorem claim_C8_upload_containment
    (stage : Except String StagedTarget) (transfer : StagedTarget → Except String Unit)
    (finalize : String → Except String (Option String)) :
    (∀ e, stage = .error e → upload_file stage transfer finalize = (none, none)) ∧
    (∀ t e, stage = .ok t → transfer t = .error e →
      upload_file stage transfer finalize = (none, none)) ∧
    (∀ t e, stage = .ok t → transfer t = .ok () → finalize t.resourceUrl = .error e →
      upload_file stage transfer finalize = (none, none)) ∧
    (∀ t fid, stage = .ok t → transfer t = .ok () → finalize t.resourceUrl = .ok fid →
      upload_file stage transfer finalize = (fid, some t.resourceUrl)) := by
  refine ⟨?_, ?_, ?_, ?_⟩
  · intro e hs
    subst hs
    rfl
  · intro t e hs ht
    subst hs
    unfold upload_file
    dsimp only
    rw [ht]
  · intro t e hs ht hf
    subst hs
    unfold upload_file
    dsimp only
    rw [ht]
    dsimp only
    rw [hf]
  · intro t fid hs ht hf
    subst hs
    unfold upload_file
    dsimp only
    rw [ht]
    dsimp only
    rw [hf]

/-- Witness for claim C8: a staging failure yields `(none, none)` and a
fully successful run yields the id/url pair, at concrete oracles. -/
theorem claim_C8_witness :
    upload_file (.error "boom") (fun _ => .ok ()) (fun _ => .ok (some "fid")) = (none, none) ∧
    upload_file (.ok ⟨"url", "resource", []⟩) (fun _ => .ok ())
      (fun _ => .ok (some "fid")) = (some "fid", some "resource") :=
  ⟨(claim_C8_upload_containment (.error "boom") (fun _ => .ok ())
      (fun _ => .ok (some "fid"))).1 "boom" rfl,
   (claim_C8_upload_containment (.ok ⟨"url", "resource", []⟩) (fun _ => .ok ())
      (fun _ => .ok (some "fid"))).2.2.2 ⟨"url", "resource", []⟩ (some "fid") rfl rfl rfl⟩

/- ### Claim C3 -/

theorem orElseNull_ne (x f : JVal) (hx : x ≠ .null) : orElseNull x f = x := by
  cases x
  case null => exact absurd rfl hx
  all_goals rfl

theorem lookupJ_mem_specMatchesE (entries : List (String × JVal)) (key : String)
    (t : Option JVal) (v : JVal) (h : lookupJ entries key = some v)
    (hc : matchesTarget t v = true) : v ∈ specMatchesE entries key t := by
  induction entries with
  | nil => simp [lookupJ] at h
  | cons e rest ih =>
    obtain ⟨k, w⟩ := e
    simp only [lookupJ, List.find?] at h
    by_cases hk : k == key
    · simp [hk] at h
      subst h
      simp [specMatchesE, hk, hc]
    · simp [hk] at h
      have hv := ih (by simpa [lookupJ] using h)
      simp only [specMatchesE, List.mem_append]
      tauto

mutual

theorem rds_sound : ∀ (d : JVal) (k : String) (t : Option JVal),
    recursive_dict_search d k t ≠ .null →
    recursive_dict_search d k t ∈ specMatches d k t
  | .null, k, t, h => by simp [recursive_dict_search] at h
  | .bool b, k, t, h => by simp [recursive_dict_search] at h
  | .num n, k, t, h => by simp [recursive_dict_search] at h
  | .str s, k, t, h => by simp [recursive_dict_search] at h
  | .arr items, k, t, h => by
    rw [recursive_dict_search] at h ⊢
    rw [specMatches]
    exact rdsList_sound items k t h
  | .dict entries, k, t, h => by
    rw [recursive_dict_search] at h ⊢
    rw [specMatches]
    cases hl : lookupJ entries k with
    | none =>
      rw [hl] at h
      dsimp only at h ⊢
      exact rdsEntries_sound entries k t h
    | some v =>
      rw [hl] at h
      dsimp only at h ⊢
      by_cases hc : matchesTarget t v = true
      · rw [if_pos hc] at h ⊢
        exact lookupJ_mem_specMatchesE entries k t v hl hc
      · rw [if_neg hc] at h ⊢
        exact rdsEntries_sound entries k t h

theorem rdsEntries_sound : ∀ (entries : List (String × JVal)) (k : String) (t : Option JVal),
    rdsEntries entries k t ≠ .null → rdsEntries entries k t ∈ specMatchesE entries k t
  | [], k, t, h => by simp [rdsEntries] at h
  | (k0, v) :: rest, k, t, h => by
    rw [rdsEntries] at h ⊢
    rw [specMatchesE]
    by_cases hv : recursive_dict_search v k t = .null
    · rw [hv] at h ⊢
      rw [show orElseNull .null (rdsEntries rest k t) = rdsEntries rest k t from rfl] at h ⊢
      have hmem := rdsEntries_sound rest k t h
      simp only [List.mem_append]
      tauto
    · rw [orElseNull_ne _ _ hv] at h ⊢
      have hmem := rds_sound v k t hv
      simp only [List.mem_append]
      tauto

theorem rdsList_sound : ∀ (items : List JVal) (k : String) (t : Option JVal),
    rdsList items k t ≠ .null → rdsList items k t ∈ specMatchesL items k t
  | [], k, t, h => by simp [rdsList] at h
  | x :: rest, k, t, h => by
    rw [rdsList] at h ⊢
    rw [specMatchesL]
    by_cases hx : recursive_dict_search x k t = .null
    · rw [hx] at h ⊢
      rw [show orElseNull .null (rdsList rest k t) = rdsList rest k t from rfl] at h ⊢
      have hmem := rdsList_sound rest k t h
      simp only [List.mem_append]
      tauto
    · rw [orElseNull_ne _ _ hx] at h ⊢
      have hmem := rds_sound x k t hx
      simp only [List.mem_append]
      tauto

end

mutual

theorem rds_complete : ∀ (d : JVal) (k : String) (t : Option JVal),
    specMatches d k t = [] → recursive_dict_search d k t = .null
  | .null, _, _, _ => rfl
  | .bool _, _, _, _ => rfl
  | .num _, _, _, _ => rfl
  | .str _, _, _, _ => rfl
  | .arr items, k, t, h => by
    rw [specMatches] at h
    rw [recursive_dict_search]
    exact rdsList_complete items k t h
  | .dict entries, k, t, h => by
    rw [specMatches] at h
    rw [recursive_dict_search]
    cases hl : lookupJ entries k with
    | none => exact rdsEntries_complete entries k t h
    | some v =>
      dsimp only
      by_cases hc : matchesTarget t v = true
      · exfalso
        have hmem := lookupJ_mem_specMatchesE entries k t v hl hc
        rw [h] at hmem
        simp at hmem
      · rw [if_neg hc]
        exact rdsEntries_complete entries k t h

theorem rdsEntries_complete : ∀ (entries : List (String × JVal)) (k : String) (t : Option JVal),
    specMatchesE entries k t = [] → rdsEntries entries k t = .null
  | [], _, _, _ => rfl
  | (k0, v) :: rest, k, t, h => by
    rw [specMatchesE] at h
    rw [rdsEntries]
    rcases List.append_eq_nil.mp h with ⟨h1, h2⟩
    rcases List.append_eq_nil.mp h1 with ⟨_, h3⟩
    rw [rds_complete v k t h3, rdsEntries_complete rest k t h2]
    rfl

theorem rdsList_complete : ∀ (items : List JVal) (k : String) (t : Option JVal),
    specMatchesL items k t = [] → rdsList items k t = .null
  | [], _, _, _ => rfl
  | x :: rest, k, t, h => by
    rw [specMatchesL] at h
    rw [rdsList]
    rcases List.append_eq_nil.mp h with ⟨h1, h2⟩
    rw [rds_complete x k t h1, rdsList_complete rest k t h2]
    rfl

end

/-- Claim C3 is false as stated: on `cexC3` the first mapping entry in
depth-first order whose key is `"k"` has value `None`, yet
`recursive_dict_search` returns 5 — the nested `None` value is conflated
with "no match" and skipped. -/
theorem claim_C3_counterexample :
    recursive_dict_search cexC3 "k" none = .num 5 ∧
    (specMatches cexC3 "k" none).head? = some .null ∧
    JVal.num 5 ≠ JVal.null :=
  ⟨rfl, rfl, fun h => JVal.noConfusion h⟩

/-- Claim C3 (amended): `recursive_dict_search` returns the value of SOME
mapping entry matching `key` (and `target_value`, when supplied), and the
no-value sentinel when no entry matches; it does not in general return the
first match in depth-first order, because a `None`-valued match is
indistinguishable from no match and is skipped. -/
theorem claim_C3_amended (data : JVal) (key : String) (target : Option JVal) :
    (recursive_dict_search data key target ≠ .null →
      recursive_dict_search data key target ∈ specMatches data key target) ∧
    (specMatches data key target = [] → recursive_dict_search data key target = .null) :=
  ⟨rds_sound data key target, rds_complete data key target⟩

/-- Witness for the amended claim C3 at concrete structures. -/
theorem claim_C3_witness :
    recursive_dict_search (JVal.dict [("k", .num 5)]) "k" none ∈
      specMatches (JVal.dict [("k", .num 5)]) "k" none ∧
    recursive_dict_search (JVal.dict [("a", .num 1)]) "k" none = .null :=
  ⟨(claim_C3_amended (JVal.dict [("k", .num 5)]) "k" none).1 (by
      rw [show recursive_dict_search (JVal.dict [("k", .num 5)]) "k" none = .num 5 from rfl]
      simp),
   (claim_C3_amended (JVal.dict [("a", .num 1)]) "k" none).2 rfl⟩

/- ### Claim C10 -/

/-- Claim C10 is false as stated: `_format_rich_list` is not total on
arbitrary string input — the guard covers only the JSON parse, so the
valid-JSON input whose `children` list is empty (the parse of
`"\x7b\"children\": []\x7d"`) raises an unguarded `IndexError` instead of
returning the empty string. -/
theorem claim_C10_counterexample :
    format_rich_list (some richC10) = .error "IndexError: list index out of range" := rfl

/-- Claim C10 (amended): `_format_rich_list` returns `""` for every input
whose JSON parsing fails (only the parse is guarded), so the video
description built by `_video_description_from_meta` tolerates unparsable
rich-text fields; but a parseable value of unexpected shape still raises,
and in `generate_blog_html` even the parse failure itself is fatal. -/
theorem claim_C10_amended :
    format_rich_list none = .ok "" ∧
    format_rich_list (some richOrdered) = .ok ("1. Step one" ++ "\n" ++ "2. Step two") ∧
    (∀ fields : List (String × String), ∃ s,
      video_description_from_meta (fun _ => none) fields = .ok s) ∧
    (∀ (parseJson : String → Except String JVal) (fields : List (String × String))
        (s e : String),
      extract_field fields "ingredients" = some s → s ≠ "" →
      parseJson s = .error e →
      generate_blog_html parseJson fields = .error e) := by
  refine ⟨rfl, rfl, fun fields => ⟨_, rfl⟩, ?_⟩
  intro parseJson fields s e hf hs hpj
  unfold generate_blog_html
  dsimp only
  rw [show renderListSection parseJson (extract_field fields "ingredients")
      "<h4>Ingredients</h4>" "<ul>" "</ul>" = .error e from by
    unfold renderListSection
    rw [hf]
    dsimp only
    rw [if_neg hs, hpj]
    rfl]
  rfl

/-- Witness for the amended claim C10: a blog-side parse failure at a
concrete metaobject propagates. -/
theorem claim_C10_witness :
    generate_blog_html (fun _ => .error "json decode error")
      [("ingredients", "not-json")] = .error "json decode error" :=
  claim_C10_amended.2.2.2 (fun _ => .error "json decode error")
    [("ingredients", "not-json")] "not-json" "json decode error" rfl (by decide) rfl

end Dehy
